import Mathlib

/-!
Shallow embedding of the MLOps-Dashboard mock-data layer
(`src/context/DataContext.tsx`, `src/types.ts`, `src/components/DeepAnalysisTool.tsx`).

Modelling conventions:
* JavaScript numbers are rationals (`Rat`); `x.toFixed(n)` followed by
  `parseFloat` is `toFix n x` (decimal rounding, half away from zero — all
  values rounded in this code are nonnegative, where this agrees with JS).
* `Math.random()` is an explicit stream `RandStream : Nat → Rat`; independent
  successive draws of a composite generator are taken from disjoint slices of
  the stream via `sub` (Cantor pairing). `uuidv4()` values are explicit
  `String` parameters / id streams, since they are external inputs.
* Timestamps (`new Date(...)`, ISO strings) are `Int` milliseconds; the
  day-granularity dates of the performance history are `Int` day indices
  (`today - i`). String rendering of dates is order-isomorphic to these.
* React `useState` state is an explicit `AppState` record; each context
  operation's code before its timer and after its timer become separate pure
  state-transformer phases, and the simulated-async workflow is their
  composition.
-/

/-- A stream of `Math.random()` results. -/
def RandStream : Type := Nat → Rat

/-- Slice `k` of a stream: models handing an independent run of successive
draws to the `k`-th generator call of a composite generator. -/
def sub {α : Type} (f : Nat → α) (k : Nat) : Nat → α :=
  fun n => f (Nat.pair k n)

/-- Drop the first `k` draws of a stream. -/
def shiftStream (rs : RandStream) (k : Nat) : RandStream :=
  fun n => rs (n + k)

/-- JS `parseFloat(x.toFixed (n))` for nonnegative `x`: round to `n` decimal
digits. -/
def toFix (n : Nat) (x : Rat) : Rat :=
  ((round (x * (10 : Rat) ^ n) : Int) : Rat) / (10 : Rat) ^ n

/-- Two-decimal rounding, the ubiquitous `toFixed(2)`. -/
def toFixed2 (x : Rat) : Rat := toFix 2 x

/-- JS `Math.max(lo, Math.min(hi, x))`. -/
def clampR (lo hi x : Rat) : Rat := max lo (min hi x)

/-- One point of `generateMockPerformanceHistory`'s result. -/
structure PerfPoint where
  date : Int
  accuracy : Rat
  precision : Rat
  «recall» : Rat
  f1Score : Rat
  latency : Rat
  throughput : Rat
deriving DecidableEq

/-- A `performanceHistory` point (`{ date, accuracy }`). -/
structure DatedAccuracy where
  date : Int
  accuracy : Rat
deriving DecidableEq

/-- A `featureImportance` entry. -/
structure FeatureImportanceEntry where
  feature : String
  importance : Rat
deriving DecidableEq

/-- An `XAIInsight`; the `prediction`/`explanationData` payloads are untyped
(`any`) constant display data in the source and are not modelled. -/
structure XAIInsight where
  id : String
  insightType : String
  description : String
  generatedAt : Int
deriving DecidableEq

/-- One feature entry of a `DataDriftReport`. -/
structure DriftFeature where
  name : String
  driftScore : Rat
  anomaliesDetected : Int
  distributionShift : Option (List (String × Rat) × List (String × Rat))
deriving DecidableEq

/-- A `DataDriftReport`. -/
structure DataDriftReport where
  timestamp : Int
  features : List DriftFeature
  overallDriftScore : Rat
  driftDetected : Bool
deriving DecidableEq

/-- A `ModelMetric` sample of a deployment. -/
structure ModelMetric where
  timestamp : Int
  requestsPerSecond : Int
  errorRate : Rat
  avgLatencyMs : Int
  cpuUtilization : Rat
  memoryUtilization : Rat
  predictionAccuracy : Option Rat
deriving DecidableEq

/-- A `ModelDeployment`. -/
structure ModelDeployment where
  id : String
  modelId : String
  version : String
  environment : String
  status : String
  deployedAt : Int
  trafficSplit : Option (List (String × Rat))
  metrics : Option (List ModelMetric)
  infrastructure : String
  region : String
  monitoringEnabled : Bool
deriving DecidableEq

/-- A `costHistory` point. -/
structure CostPoint where
  date : Int
  cost : Rat
  cpuHours : Rat
  gpuHours : Rat
deriving DecidableEq

/-- An `HPOCTrial` (never populated by the code: `trials` stays `[]`). -/
structure HPOCTrial where
  id : String
  metricValue : Rat
  status : String
  startedAt : Int
  completedAt : Option Int
deriving DecidableEq

/-- A `HyperparameterOptimizationRun`; `searchSpace` / `bestParameters` are
passed-through display payloads, modelled as association lists. -/
structure HPORun where
  id : String
  modelId : String
  status : String
  startedAt : Int
  completedAt : Option Int
  strategy : String
  searchSpace : List (String × String)
  bestParameters : Option (List (String × Rat))
  bestMetricValue : Option Rat
  trials : List HPOCTrial
deriving DecidableEq

/-- An `MLModelExtended` record. -/
structure MLModelExtended where
  id : String
  name : String
  version : String
  accuracy : Rat
  status : String
  performanceHistory : List DatedAccuracy
  metricsHistory : List PerfPoint
  hyperparameters : List (String × String)
  featureImportance : List FeatureImportanceEntry
  xaiInsights : List XAIInsight
  deploymentStatus : Option String
  deploymentHistory : Option (List ModelDeployment)
  costHistory : Option (List CostPoint)
  dataDriftHistory : Option (List DataDriftReport)
  hpoRuns : Option (List HPORun)
deriving DecidableEq

/-- A `FeatureStoreEntry` (the `schema` object has the single key `value`). -/
structure FeatureStoreEntry where
  id : String
  name : String
  description : String
  featureType : String
  version : Int
  source : String
  lastUpdated : Int
  schemaValue : String
  usedByModels : List (String × String × String)
  lineage : List String
  missingRate : Rat
  outlierCount : Int
  distinctCount : Int
deriving DecidableEq

/-- An `MLAlertExtended`. -/
structure MLAlertExtended where
  id : String
  modelId : String
  modelName : String
  metric : String
  threshold : Rat
  currentValue : Rat
  triggeredAt : Int
  status : String
  severity : String
  message : String
  assignedTo : Option String
  resolutionNotes : Option String
deriving DecidableEq

/-- An `AuditLogEntry`; the untyped `details` object is modelled as a
string association list of its display keys. -/
structure AuditLogEntry where
  id : String
  timestamp : Int
  actor : String
  action : String
  targetType : String
  targetId : String
  details : List (String × String)
deriving DecidableEq

/-- The `MockDataProvider` state: the four `useState` cells. -/
structure AppState where
  mockModels : List MLModelExtended
  mockFeatures : List FeatureStoreEntry
  mockAlerts : List MLAlertExtended
  mockAuditLogs : List AuditLogEntry
deriving DecidableEq

/-!
Mock data generators (`src/context/DataContext.tsx`, lines 38-265).
-/

/-- The six mutable accumulators of `generateMockPerformanceHistory`. -/
structure PerfAcc where
  acc : Rat
  prc : Rat
  rcl : Rat
  f1 : Rat
  lat : Rat
  thr : Rat
deriving DecidableEq

/-- The six initial `Math.random() * (hi - lo) + lo` draws of
`generateMockPerformanceHistory`. -/
def perfInit (rs : RandStream) : PerfAcc :=
  { acc := rs 0 * (95 - 80) + 80
    prc := rs 1 * (95 / 100 - 8 / 10) + 8 / 10
    rcl := rs 2 * (95 / 100 - 8 / 10) + 8 / 10
    f1 := rs 3 * (95 / 100 - 8 / 10) + 8 / 10
    lat := rs 4 * (100 - 10) + 10
    thr := rs 5 * (1000 - 100) + 100 }

/-- One loop iteration's clamped random-walk update of the accumulators. -/
def perfUpdate (st : PerfAcc) (r0 r1 r2 r3 r4 r5 : Rat) : PerfAcc :=
  { acc := clampR 70 99 (st.acc + (r0 - 1 / 2) * 2)
    prc := clampR (7 / 10) (99 / 100) (st.prc + (r1 - 1 / 2) * (5 / 100))
    rcl := clampR (7 / 10) (99 / 100) (st.rcl + (r2 - 1 / 2) * (5 / 100))
    f1 := clampR (7 / 10) (99 / 100) (st.f1 + (r3 - 1 / 2) * (5 / 100))
    lat := clampR 5 200 (st.lat + (r4 - 1 / 2) * 10)
    thr := clampR 50 2000 (st.thr + (r5 - 1 / 2) * 100) }

/-- The record pushed by one loop iteration (all fields `toFixed(2)`). -/
def perfEntry (day : Int) (st : PerfAcc) : PerfPoint :=
  { date := day
    accuracy := toFixed2 st.acc
    precision := toFixed2 st.prc
    «recall» := toFixed2 st.rcl
    f1Score := toFixed2 st.f1
    latency := toFixed2 st.lat
    throughput := toFixed2 st.thr }

/-- The `for (let i = days - 1; i >= 0; i--)` loop; `rem` is the number of
iterations left (so the current `i` is `rem - 1`), `idx` the position of the
next unconsumed draw of the sequential random stream. -/
def perfLoop (rs : RandStream) (today : Int) : Nat → Nat → PerfAcc → List PerfPoint
  | _, 0, _ => []
  | idx, r + 1, st =>
    let st2 := perfUpdate st (rs idx) (rs (idx + 1)) (rs (idx + 2)) (rs (idx + 3))
      (rs (idx + 4)) (rs (idx + 5))
    perfEntry (today - (r : Int)) st2 :: perfLoop rs today (idx + 6) r st2

/-- `generateMockPerformanceHistory(days)`: draws 6 initial values
(indices 0-5), then 6 per day; pushes one rounded record per day with date
`today - i`. -/
def generateMockPerformanceHistory (rs : RandStream) (today : Int) (days : Nat) :
    List PerfPoint :=
  perfLoop rs today 6 days (perfInit rs)

/-- The ten base feature names of `generateMockFeatureImportance`. -/
def importanceNames : List String :=
  ["feature_A", "feature_B", "feature_C", "feature_D", "feature_E",
   "feature_F", "feature_G", "feature_H", "feature_I", "feature_J"]

/-- `generateMockFeatureImportance(numFeatures)`: one random importance per
entry, sorted descending by importance. -/
def generateMockFeatureImportance (rs : RandStream) (numFeatures : Nat) :
    List FeatureImportanceEntry :=
  ((List.range numFeatures).map (fun i =>
    { feature := importanceNames.getD (i % importanceNames.length) "" ++
        (if importanceNames.length ≤ i then "_" ++ toString (i / importanceNames.length) else "")
      importance := toFix 4 (rs i * (2 / 10) + 1 / 100) : FeatureImportanceEntry })
  ).insertionSort (fun a b => b.importance ≤ a.importance)

/-- `generateMockXAIInsights()`: two fixed insights with fresh ids. -/
def generateMockXAIInsights (ids : Nat → String) (now : Int) : List XAIInsight :=
  [{ id := ids 0
     insightType := "SHAP"
     description := "SHAP values for a recent prediction. Feature_A contributed positively, Feature_C negatively."
     generatedAt := now },
   { id := ids 1
     insightType := "LIME"
     description := "LIME explanation for a misclassified instance. High values in Feature_X were critical."
     generatedAt := now - 3600000 }]

/-- The five fixed feature names of `generateMockDataDriftReport`. -/
def driftFeatureNames : List String :=
  ["feature_A", "feature_B", "feature_C", "feature_D", "feature_E"]

/-- One feature entry of a drift report for loop index `i` (the
`distributionShift` is present exactly when `i % 3 === 0`). -/
def driftFeatureEntry (rv : RandStream) (i : Nat) (name : String) : DriftFeature :=
  { name := name
    driftScore := toFixed2 (rv 0 * (1 / 2))
    anomaliesDetected := ⌊rv 1 * 5⌋
    distributionShift :=
      if i % 3 = 0 then
        some ([("val1", 3 / 10), ("val2", 7 / 10)],
              [("val1", rv 2 * (4 / 10) + 1 / 10), ("val2", rv 3 * (4 / 10) + 5 / 10)])
      else none }

/-- The `for (let i = days - 1; i >= 0; i--)` loop of
`generateMockDataDriftReport`; `rem - 1` is the current `i`. Day `i` hands
slice `i` of the stream to its five features. -/
def driftLoop (rs : RandStream) (now : Int) : Nat → List DataDriftReport
  | 0 => []
  | r + 1 =>
    let feats := (List.range driftFeatureNames.length).map (fun j =>
      driftFeatureEntry (sub (sub rs r) j) r (driftFeatureNames.getD j ""))
    let overall := toFixed2 ((feats.map DriftFeature.driftScore).sum / (driftFeatureNames.length : Rat))
    { timestamp := now - (r : Int) * 86400000
      features := feats
      overallDriftScore := overall
      driftDetected := decide ((1 : Rat) / 4 < overall) } :: driftLoop rs now r

/-- `generateMockDataDriftReport(days)`. -/
def generateMockDataDriftReport (rs : RandStream) (now : Int) (days : Nat) :
    List DataDriftReport :=
  driftLoop rs now days

/-- A production-deployment metric sample (`generateMockDeployments`, first
element): constants `*100+50`, `*0.01`, `*50+20`, `*0.8`, `*0.7`, and an
optional prediction accuracy behind `Math.random() * 0.1 > 0.05`. -/
def mkProdMetric (rv : RandStream) (now : Int) (i : Nat) : ModelMetric :=
  { timestamp := now - ((24 : Int) - (i : Int)) * 3600000
    requestsPerSecond := ⌊rv 0 * 100⌋ + 50
    errorRate := toFix 3 (rv 1 * (1 / 100))
    avgLatencyMs := ⌊rv 2 * 50⌋ + 20
    cpuUtilization := toFixed2 (rv 3 * (8 / 10))
    memoryUtilization := toFixed2 (rv 4 * (7 / 10))
    predictionAccuracy :=
      if (5 : Rat) / 100 < rv 5 * (1 / 10) then some (toFix 3 (rv 6 * (5 / 100) + 9 / 10))
      else none }

/-- A canary-deployment metric sample (`generateMockDeployments`, second
element): constants `*10+5`, `*0.02`, `*70+30`, `*0.3`, `*0.2`. -/
def mkCanaryMetric (rv : RandStream) (now : Int) (i : Nat) : ModelMetric :=
  { timestamp := now - ((24 : Int) - (i : Int)) * 3600000
    requestsPerSecond := ⌊rv 0 * 10⌋ + 5
    errorRate := toFix 3 (rv 1 * (2 / 100))
    avgLatencyMs := ⌊rv 2 * 70⌋ + 30
    cpuUtilization := toFixed2 (rv 3 * (3 / 10))
    memoryUtilization := toFixed2 (rv 4 * (2 / 10))
    predictionAccuracy := none }

/-- `generateMockDeployments(modelId)`: one production deployment
(status `Deployed`) and one canary deployment (status `Canary`), each with 24
metric samples. -/
def generateMockDeployments (rs : RandStream) (ids : Nat → String) (modelId : String)
    (now : Int) : List ModelDeployment :=
  [{ id := ids 0
     modelId := modelId
     version := "1.0"
     environment := "production"
     status := "Deployed"
     deployedAt := now - 86400000 * 5
     trafficSplit := none
     metrics := some ((List.range 24).map (fun i => mkProdMetric (sub (sub rs 0) i) now i))
     infrastructure := "Kubernetes"
     region := "us-east-1"
     monitoringEnabled := true },
   { id := ids 1
     modelId := modelId
     version := "1.1-canary"
     environment := "canary"
     status := "Canary"
     deployedAt := now - 86400000
     trafficSplit := some [(modelId, 1 / 10), ("previous_model_id", 9 / 10)]
     metrics := some ((List.range 24).map (fun i => mkCanaryMetric (sub (sub rs 1) i) now i))
     infrastructure := "Serverless"
     region := "us-west-2"
     monitoringEnabled := true }]

/-- The eight base names of `generateMockFeatures`. -/
def baseFeatureNames : List String :=
  ["user_id", "item_id", "category", "price", "reviews_count", "age_group",
   "country", "engagement_score"]

/-- `generateMockFeatures()`. -/
def generateMockFeatures (rs : RandStream) (ids : Nat → String) (now : Int) :
    List FeatureStoreEntry :=
  (List.range baseFeatureNames.length).map (fun i =>
    let name := baseFeatureNames.getD i ""
    let rv := sub rs i
    { id := ids i
      name := name
      description := "Description for " ++ name
      featureType := if i % 3 = 0 then "numeric" else "categorical"
      version := 1
      source := "data_pipeline_v" ++ (if i % 2 = 0 then "1" else "2")
      lastUpdated := now - ⌊rv 0 * 86400000 * 30⌋
      schemaValue := if i % 3 = 0 then "float" else "string"
      usedByModels := [("model-123", "ChurnPredictor", "1.0")]
      lineage := ["raw_user_data." ++ name, "processed_user_data." ++ name ++ "_normalized"]
      missingRate := toFixed2 (rv 1 * (1 / 10))
      outlierCount := ⌊rv 2 * 50⌋
      distinctCount := ⌊rv 3 * 1000⌋ + 10 })

/-- `generateMockAlerts()`: three fixed alerts. -/
def generateMockAlerts (ids : Nat → String) (now : Int) : List MLAlertExtended :=
  [{ id := ids 0
     modelId := "model-123"
     modelName := "ChurnPredictor"
     metric := "accuracy_drop"
     threshold := 85 / 100
     currentValue := 82 / 100
     triggeredAt := now - 3600000 * 2
     status := "Active"
     severity := "High"
     message := "Accuracy dropped below threshold for ChurnPredictor v1.0 in production!"
     assignedTo := some "John Doe"
     resolutionNotes := none },
   { id := ids 1
     modelId := "model-456"
     modelName := "RecommendationEngine"
     metric := "latency_spike"
     threshold := 100
     currentValue := 125
     triggeredAt := now - 3600000 * 24
     status := "Resolved"
     severity := "Medium"
     message := "Latency spike detected for RecommendationEngine v2.1. Investigating..."
     assignedTo := none
     resolutionNotes := some "Scaling group adjusted, latency normalized." },
   { id := ids 2
     modelId := "model-123"
     modelName := "ChurnPredictor"
     metric := "data_drift"
     threshold := 3 / 10
     currentValue := 35 / 100
     triggeredAt := now - 3600000 * 5
     status := "Active"
     severity := "Critical"
     message := "Significant data drift detected in input features for ChurnPredictor v1.0!"
     assignedTo := some "Jane Smith"
     resolutionNotes := none }]

/-- `generateMockAuditLogs()`: three fixed entries. -/
def generateMockAuditLogs (ids : Nat → String) (now : Int) : List AuditLogEntry :=
  [{ id := ids 0
     timestamp := now - 86400000 * 10
     actor := "Admin User"
     action := "model_retrained"
     targetType := "MLModel"
     targetId := "model-123"
     details := [("modelName", "ChurnPredictor"), ("oldVersion", "0.9"),
                 ("newVersion", "1.0"), ("accuracyImprovement", "2%")] },
   { id := ids 1
     timestamp := now - 86400000 * 5
     actor := "CI/CD Pipeline"
     action := "model_deployed"
     targetType := "Deployment"
     targetId := "dep-789"
     details := [("modelName", "ChurnPredictor"), ("version", "1.0"),
                 ("environment", "production"), ("region", "us-east-1")] },
   { id := ids 2
     timestamp := now - 3600000 * 2
     actor := "Monitoring System"
     action := "alert_triggered"
     targetType := "Alert"
     targetId := "alert-101"
     details := [("alertName", "accuracy_drop"), ("modelName", "ChurnPredictor"),
                 ("severity", "High")] }]

/-- A cost-history list: `generateMockPerformanceHistory(days).map` with three
fresh draws per entry (`cost`, `cpuHours`, `gpuHours`); the multiplier/offset
constants differ per model. -/
def genCostHistory (rs : RandStream) (today : Int) (days : Nat)
    (cm ca um ua gm : Rat) : List CostPoint :=
  (generateMockPerformanceHistory (sub rs 0) today days).enum.map (fun p =>
    let rv := sub (sub rs 1) p.1
    { date := p.2.date
      cost := toFixed2 (rv 0 * cm + ca)
      cpuHours := toFixed2 (rv 1 * um + ua)
      gpuHours := toFixed2 (rv 2 * gm) })

/-!
The three initial mock models and the provider's initial state
(`MockDataProvider`, lines 267-321).
-/

/-- Initial model `model-123` (`ChurnPredictor`). -/
def initModel123 (rs : RandStream) (ids : Nat → String) (now today : Int) :
    MLModelExtended :=
  { id := "model-123"
    name := "ChurnPredictor"
    version := "1.0"
    accuracy := 925 / 10
    status := "Production"
    performanceHistory := (generateMockPerformanceHistory (sub rs 0) today 30).map
      (fun d => { date := d.date, accuracy := d.accuracy })
    metricsHistory := generateMockPerformanceHistory (sub rs 1) today 30
    hyperparameters := [("learningRate", "0.01"), ("epochs", "100"), ("optimizer", "Adam")]
    featureImportance := generateMockFeatureImportance (sub rs 2) 10
    xaiInsights := generateMockXAIInsights (sub ids 0) now
    deploymentStatus := some "Deployed"
    deploymentHistory := some (generateMockDeployments (sub rs 3) (sub ids 1) "model-123" now)
    costHistory := some (genCostHistory (sub rs 4) today 30 500 100 20 5 5)
    dataDriftHistory := some (generateMockDataDriftReport (sub rs 5) now 10)
    hpoRuns := none }

/-- Initial model `model-456` (`RecommendationEngine`). -/
def initModel456 (rs : RandStream) (ids : Nat → String) (now today : Int) :
    MLModelExtended :=
  { id := "model-456"
    name := "RecommendationEngine"
    version := "2.1"
    accuracy := 881 / 10
    status := "Staging"
    performanceHistory := (generateMockPerformanceHistory (sub rs 0) today 30).map
      (fun d => { date := d.date, accuracy := d.accuracy })
    metricsHistory := generateMockPerformanceHistory (sub rs 1) today 30
    hyperparameters := [("embeddingDim", "64"), ("numLayers", "3"), ("activation", "ReLU")]
    featureImportance := generateMockFeatureImportance (sub rs 2) 15
    xaiInsights := []
    deploymentStatus := some "Inactive"
    deploymentHistory := some []
    costHistory := some (genCostHistory (sub rs 4) today 30 300 50 15 3 3)
    dataDriftHistory := some (generateMockDataDriftReport (sub rs 5) now 10)
    hpoRuns := none }

/-- Initial model `model-789` (`FraudDetector`). -/
def initModel789 (rs : RandStream) (ids : Nat → String) (now today : Int) :
    MLModelExtended :=
  { id := "model-789"
    name := "FraudDetector"
    version := "0.9-beta"
    accuracy := 992 / 10
    status := "Training"
    performanceHistory := (generateMockPerformanceHistory (sub rs 0) today 10).map
      (fun d => { date := d.date, accuracy := d.accuracy })
    metricsHistory := generateMockPerformanceHistory (sub rs 1) today 10
    hyperparameters := [("treeDepth", "10"), ("estimators", "200"), ("learningRate", "0.05")]
    featureImportance := generateMockFeatureImportance (sub rs 2) 8
    xaiInsights := []
    deploymentStatus := some "Inactive"
    deploymentHistory := some []
    costHistory := some (genCostHistory (sub rs 4) today 10 100 20 10 2 2)
    dataDriftHistory := some (generateMockDataDriftReport (sub rs 5) now 5)
    hpoRuns := none }

/-- The provider's initial state: three mock models, the generated features,
alerts and audit logs. -/
def initState (rs : RandStream) (ids : Nat → String) (now today : Int) : AppState :=
  { mockModels := [initModel123 (sub rs 0) (sub ids 0) now today,
                   initModel456 (sub rs 1) (sub ids 1) now today,
                   initModel789 (sub rs 2) (sub ids 2) now today]
    mockFeatures := generateMockFeatures (sub rs 3) (sub ids 3) now
    mockAlerts := generateMockAlerts (sub ids 4) now
    mockAuditLogs := generateMockAuditLogs (sub ids 5) now }

/-!
Context operations (`MockDataProvider`, lines 325-421). Each simulated-async
workflow is split at its `setTimeout` / `await`-delay into a start phase and a
finish phase.
-/

/-- `retrainMlModel`, immediate phase: status `Training`, accuracy lowered by
`Math.random() * 5` (then `toFixed(2)`). -/
def retrainStart (id : String) (r : Rat) (s : AppState) : AppState :=
  { s with mockModels := s.mockModels.map (fun model =>
      if model.id = id then
        { model with status := "Training", accuracy := toFixed2 (model.accuracy - r * 5) }
      else model) }

/-- `retrainMlModel`, timer phase (after 5000 ms): status `Staging`, accuracy
raised by `Math.random() * 7`, fresh 30-day performance history. -/
def retrainFinish (id : String) (r : Rat) (rs : RandStream) (today : Int)
    (s : AppState) : AppState :=
  { s with mockModels := s.mockModels.map (fun model =>
      if model.id = id then
        { model with
          status := "Staging"
          accuracy := toFixed2 (model.accuracy + r * 7)
          performanceHistory := (generateMockPerformanceHistory rs today 30).map
            (fun d => { date := d.date, accuracy := d.accuracy }) }
      else model) }

/-- The `newDeployment` record built by `deployMlModel`. -/
def newDeploymentRecord (newId : String) (model : MLModelExtended)
    (environment : String) (now : Int) : ModelDeployment :=
  { id := newId
    modelId := model.id
    version := model.version
    environment := environment
    status := "Rolling Update"
    deployedAt := now
    trafficSplit := none
    metrics := some []
    infrastructure := "Kubernetes"
    region := "us-east-1"
    monitoringEnabled := true }

/-- `deployMlModel`, immediate phase: append the new `Rolling Update`
deployment to the matching model's history and set its `deploymentStatus`. -/
def deployStart (newId : String) (model : MLModelExtended) (environment : String)
    (now : Int) (s : AppState) : AppState :=
  { s with mockModels := s.mockModels.map (fun m =>
      if m.id = model.id then
        { m with
          deploymentHistory :=
            some (m.deploymentHistory.getD [] ++ [newDeploymentRecord newId model environment now])
          deploymentStatus := some "Rolling Update" }
      else m) }

/-- `deployMlModel`, timer phase (after 3000 ms): mark the new deployment and
the model `Deployed`, then append one `model_deployed` audit entry. -/
def deployFinish (aId newId : String) (model : MLModelExtended) (environment : String)
    (now2 : Int) (s : AppState) : AppState :=
  { s with
    mockModels := s.mockModels.map (fun m =>
      if m.id = model.id then
        { m with
          deploymentHistory := m.deploymentHistory.map (fun hist =>
            hist.map (fun d => if d.id = newId then { d with status := "Deployed" } else d))
          deploymentStatus := some "Deployed" }
      else m)
    mockAuditLogs := s.mockAuditLogs ++
      [{ id := aId, timestamp := now2, actor := "System", action := "model_deployed",
         targetType := "Deployment", targetId := newId,
         details := [("modelName", model.name), ("version", model.version),
                     ("environment", environment)] }] }

/-- `rollbackDeployment`, immediate phase: mark every deployment with the given
id `Inactive`, across all models. -/
def rollbackStart (deploymentId : String) (s : AppState) : AppState :=
  { s with mockModels := s.mockModels.map (fun m =>
      { m with deploymentHistory := m.deploymentHistory.map (fun hist =>
          hist.map (fun d => if d.id = deploymentId then { d with status := "Inactive" } else d)) }) }

/-- `rollbackDeployment`, timer phase (after 2000 ms): append one
`deployment_rolled_back` audit entry. -/
def rollbackFinish (aId deploymentId : String) (now : Int) (s : AppState) : AppState :=
  { s with mockAuditLogs := s.mockAuditLogs ++
      [{ id := aId, timestamp := now, actor := "System", action := "deployment_rolled_back",
         targetType := "Deployment", targetId := deploymentId,
         details := [("deploymentId", deploymentId)] }] }

/-- The whole `rollbackDeployment` workflow: both phases in order. -/
def rollbackDeployment (aId deploymentId : String) (now : Int) (s : AppState) : AppState :=
  rollbackFinish aId deploymentId now (rollbackStart deploymentId s)

/-- `updateTrafficSplit`, immediate phase: replace the traffic split of every
deployment with the given id, across all models. -/
def updateTrafficSplitStart (deploymentId : String) (ts : List (String × Rat))
    (s : AppState) : AppState :=
  { s with mockModels := s.mockModels.map (fun m =>
      { m with deploymentHistory := m.deploymentHistory.map (fun hist =>
          hist.map (fun d => if d.id = deploymentId then { d with trafficSplit := some ts } else d)) }) }

/-- `updateTrafficSplit`, timer phase (after 1000 ms): append one
`traffic_split_updated` audit entry. -/
def updateTrafficSplitFinish (aId deploymentId : String) (now : Int)
    (s : AppState) : AppState :=
  { s with mockAuditLogs := s.mockAuditLogs ++
      [{ id := aId, timestamp := now, actor := "System", action := "traffic_split_updated",
         targetType := "Deployment", targetId := deploymentId,
         details := [("deploymentId", deploymentId)] }] }

/-- The `newRun` record built by `createHPOptionRun`. -/
def newHPORunRecord (newId modelId strategy : String)
    (searchSpace : List (String × String)) (now : Int) : HPORun :=
  { id := newId
    modelId := modelId
    status := "Running"
    startedAt := now
    completedAt := none
    strategy := strategy
    searchSpace := searchSpace
    bestParameters := none
    bestMetricValue := none
    trials := [] }

/-- `createHPOptionRun`, immediate phase: append the new `Running` run to the
matching model. -/
def hpoStart (newId modelId strategy : String) (searchSpace : List (String × String))
    (now : Int) (s : AppState) : AppState :=
  { s with mockModels := s.mockModels.map (fun m =>
      if m.id = modelId then
        { m with
          hpoRuns :=
            some (m.hpoRuns.getD [] ++ [newHPORunRecord newId modelId strategy searchSpace now]) }
      else m) }

/-- `createHPOptionRun`, timer phase (after 5000 ms): complete the run
(`bestMetricValue` 0.93, fixed best parameters) and append one
`hpo_run_created` audit entry. `capturedName` is the render-time
`mockModels.find(...)?.name` captured by the closure. -/
def hpoFinish (aId newId modelId strategy : String) (capturedName : Option String)
    (now2 : Int) (s : AppState) : AppState :=
  { s with
    mockModels := s.mockModels.map (fun m =>
      if m.id = modelId then
        { m with hpoRuns := m.hpoRuns.map (fun runs => runs.map (fun run =>
            if run.id = newId then
              { run with
                status := "Completed"
                completedAt := some now2
                bestMetricValue := some (93 / 100)
                bestParameters := some [("learningRate", 5 / 1000), ("batchSize", 32)] }
            else run)) }
      else m)
    mockAuditLogs := s.mockAuditLogs ++
      [{ id := aId
         timestamp := now2
         actor := "User"
         action := "hpo_run_created"
         targetType := "MLModel"
         targetId := modelId
         details := (match capturedName with
                     | some n => [("modelName", n)]
                     | none => []) ++ [("strategy", strategy)] }] }

/-- `acknowledgeAlert`: set the matching alert `Acknowledged`, assign it, store
the notes, and append one `alert_acknowledged` audit entry. -/
def acknowledgeAlert (aId alertId notes : String) (now : Int) (s : AppState) : AppState :=
  { s with
    mockAlerts := s.mockAlerts.map (fun a =>
      if a.id = alertId then
        { a with
          status := "Acknowledged"
          assignedTo := some "Current User"
          resolutionNotes := some notes }
      else a)
    mockAuditLogs := s.mockAuditLogs ++
      [{ id := aId
         timestamp := now
         actor := "Current User"
         action := "alert_acknowledged"
         targetType := "Alert"
         targetId := alertId
         details := [("notes", notes)] }] }

/-- `resolveAlert`: set the matching alert `Resolved` (notes defaulted when
empty, JS `notes || 'Resolved manually.'`) and append one `alert_resolved`
audit entry. -/
def resolveAlert (aId alertId notes : String) (now : Int) (s : AppState) : AppState :=
  { s with
    mockAlerts := s.mockAlerts.map (fun a =>
      if a.id = alertId then
        { a with
          status := "Resolved"
          resolutionNotes := some (if notes = "" then "Resolved manually." else notes) }
      else a)
    mockAuditLogs := s.mockAuditLogs ++
      [{ id := aId
         timestamp := now
         actor := "Current User"
         action := "alert_resolved"
         targetType := "Alert"
         targetId := alertId
         details := [("notes", notes)] }] }

/-- One atomic state update of the provider: a phase of one of the seven
context operations, with its external inputs (target ids, fresh uuids, the
argument payloads). -/
inductive Op where
  | retrainStartOp (id : String)
  | retrainFinishOp (id : String)
  | deployStartOp (newId : String) (model : MLModelExtended) (environment : String)
  | deployFinishOp (aId newId : String) (model : MLModelExtended) (environment : String)
  | rollbackStartOp (deploymentId : String)
  | rollbackFinishOp (aId deploymentId : String)
  | trafficStartOp (deploymentId : String) (ts : List (String × Rat))
  | trafficFinishOp (aId deploymentId : String)
  | hpoStartOp (newId modelId strategy : String) (searchSpace : List (String × String))
  | hpoFinishOp (aId newId modelId strategy : String) (capturedName : Option String)
  | ackAlertOp (aId alertId notes : String)
  | resolveAlertOp (aId alertId notes : String)

/-- Run one phase against the state, with the `Math.random()` stream and the
clock explicit. -/
def applyOp (op : Op) (rs : RandStream) (now today : Int) (s : AppState) : AppState :=
  match op with
  | .retrainStartOp id => retrainStart id (rs 0) s
  | .retrainFinishOp id => retrainFinish id (rs 0) (shiftStream rs 1) today s
  | .deployStartOp newId model environment => deployStart newId model environment now s
  | .deployFinishOp aId newId model environment => deployFinish aId newId model environment now s
  | .rollbackStartOp deploymentId => rollbackStart deploymentId s
  | .rollbackFinishOp aId deploymentId => rollbackFinish aId deploymentId now s
  | .trafficStartOp deploymentId ts => updateTrafficSplitStart deploymentId ts s
  | .trafficFinishOp aId deploymentId => updateTrafficSplitFinish aId deploymentId now s
  | .hpoStartOp newId modelId strategy searchSpace => hpoStart newId modelId strategy searchSpace now s
  | .hpoFinishOp aId newId modelId strategy capturedName =>
      hpoFinish aId newId modelId strategy capturedName now s
  | .ackAlertOp aId alertId notes => acknowledgeAlert aId alertId notes now s
  | .resolveAlertOp aId alertId notes => resolveAlert aId alertId notes now s

/-- The provider's step relation: some phase of some operation ran, with some
random draws and clock readings. -/
def Step (s s' : AppState) : Prop :=
  ∃ (op : Op) (rs : RandStream) (now today : Int), s' = applyOp op rs now today s

/-- States reachable from a given state by context-operation phases. -/
def Reachable (s0 s : AppState) : Prop :=
  Relation.ReflTransGen Step s0 s

/-!
`handleAnalyze` of `DeepAnalysisTool` (`src/components/DeepAnalysisTool.tsx`,
lines 78-109). The component state is the five `useState` cells; the outcome
of the generative-AI call is an explicit `Except` value; the returned `Bool`
records whether the call was attempted.
-/

/-- The five `useState` cells of `DeepAnalysisTool`. -/
structure AnalysisState where
  fileName : String
  fileContent : String
  analysis : String
  loading : Bool
  error : String
deriving DecidableEq

/-- The validation message of `handleAnalyze`. -/
def validationMessage : String := "Please provide both a file name and content."

/-- JS `!s.trim()`: the string is empty or consists of whitespace only. -/
def isBlank (s : String) : Bool := s.data.all Char.isWhitespace

/-- `handleAnalyze`: blank-input validation, then the AI call with its
success / failure / finally state updates. -/
def handleAnalyze (st : AnalysisState) (apiResult : Except String String) :
    AnalysisState × Bool :=
  if isBlank st.fileName ∨ isBlank st.fileContent then
    ({ st with error := validationMessage }, false)
  else
    match apiResult with
    | Except.ok t =>
        ({ st with
           loading := false
           error := ""
           analysis := if t = "" then "No analysis generated." else t }, true)
    | Except.error msg =>
        ({ st with
           loading := false
           analysis := ""
           error := if msg = "" then "An error occurred during analysis." else msg }, true)

/-!
Derived observations over the state, used by the claims: the id collections of
each entity kind, and the failure-freedom invariant of the simulated
workflows.
-/

/-- Concatenate a list of id lists. -/
def concatIds : List (List String) → List String
  | [] => []
  | l :: ls => l ++ concatIds ls

/-- The ids of the models. -/
def modelIds (s : AppState) : List String := s.mockModels.map MLModelExtended.id

/-- The deployment ids recorded in one model's history. -/
def deploymentIdsOf (m : MLModelExtended) : List String :=
  (m.deploymentHistory.getD []).map ModelDeployment.id

/-- All deployment ids of the state. -/
def deploymentIds (s : AppState) : List String :=
  concatIds (s.mockModels.map deploymentIdsOf)

/-- The HPO-run ids recorded in one model. -/
def hpoIdsOf (m : MLModelExtended) : List String :=
  (m.hpoRuns.getD []).map HPORun.id

/-- All HPO-run ids of the state. -/
def hpoIds (s : AppState) : List String :=
  concatIds (s.mockModels.map hpoIdsOf)

/-- The ids of the alerts. -/
def alertIds (s : AppState) : List String := s.mockAlerts.map MLAlertExtended.id

/-- The ids of the feature-store entries. -/
def featureIds (s : AppState) : List String := s.mockFeatures.map FeatureStoreEntry.id

/-- The ids of the audit-log entries. -/
def auditIds (s : AppState) : List String := s.mockAuditLogs.map AuditLogEntry.id

/-- An HPO run is never failing nor pending, and a completed one records the
fixed best metric value 0.93. -/
def runOk (run : HPORun) : Prop :=
  (run.status = "Running" ∨ run.status = "Completed") ∧
  (run.status = "Completed" → run.bestMetricValue = some (93 / 100))

/-- A deployment status the workflows can produce; no failed state exists. -/
def depStatusOk (d : ModelDeployment) : Prop :=
  d.status = "Deployed" ∨ d.status = "Canary" ∨ d.status = "Rolling Update" ∨
    d.status = "Inactive"

/-- Failure freedom of one model: every HPO run is `Running` or `Completed`
and no deployment status is failing. -/
def modelOk (m : MLModelExtended) : Prop :=
  (∀ run ∈ m.hpoRuns.getD [], runOk run) ∧ (∀ d ∈ m.deploymentHistory.getD [], depStatusOk d)

/-- Failure freedom of a state: every HPO run of every model is `Running` or
`Completed` (never `Failed` or `Pending`, with `bestMetricValue` 0.93 once
completed), and no deployment is in a failed state. -/
def noFailures (s : AppState) : Prop :=
  ∀ m ∈ s.mockModels, modelOk m

/-!
Concrete fixtures for witness instantiations.
-/

/-- A constant random stream of one half. -/
def rsHalf : RandStream := fun _ => 1 / 2

/-- A constant random stream of zero. -/
def rsZero : RandStream := fun _ => 0

/-- A constant random stream of nine tenths. -/
def rsHigh : RandStream := fun _ => 9 / 10

/-- A concrete id supply. -/
def idsFix : Nat → String := fun n => "id-" ++ toString n

/-- The empty provider state. -/
def emptyState : AppState :=
  { mockModels := [], mockFeatures := [], mockAlerts := [], mockAuditLogs := [] }

/-- A small concrete model record for witnesses. -/
def sampleModel : MLModelExtended :=
  { id := "model-123"
    name := "ChurnPredictor"
    version := "1.0"
    accuracy := 925 / 10
    status := "Production"
    performanceHistory := []
    metricsHistory := []
    hyperparameters := []
    featureImportance := []
    xaiInsights := []
    deploymentStatus := some "Deployed"
    deploymentHistory := some [{ id := "dep-1"
                                 modelId := "model-123"
                                 version := "0.9"
                                 environment := "production"
                                 status := "Deployed"
                                 deployedAt := 0
                                 trafficSplit := none
                                 metrics := some []
                                 infrastructure := "Kubernetes"
                                 region := "us-east-1"
                                 monitoringEnabled := true }]
    costHistory := none
    dataDriftHistory := none
    hpoRuns := none }

/-- A one-model concrete state for witnesses. -/
def oneModelState : AppState :=
  { mockModels := [sampleModel], mockFeatures := [], mockAlerts := [], mockAuditLogs := [] }

/-!
The full simulated-async workflows: both phases composed in program order.
-/

/-- The whole `retrainMlModel` workflow: immediate phase, then the 5000 ms
timer phase with its own accuracy draw and fresh history stream. -/
def retrainMlModel (id : String) (r1 r2 : Rat) (rs2 : RandStream) (today : Int)
    (s : AppState) : AppState :=
  retrainFinish id r2 rs2 today (retrainStart id r1 s)

/-- The whole `deployMlModel` workflow: immediate phase, then the 3000 ms
delay phase. -/
def deployMlModel (aId newId : String) (model : MLModelExtended) (environment : String)
    (now now2 : Int) (s : AppState) : AppState :=
  deployFinish aId newId model environment now2 (deployStart newId model environment now s)

/-- The whole `createHPOptionRun` workflow: immediate phase, then the 5000 ms
delay phase. -/
def createHPOptionRun (aId newId modelId strategy : String)
    (searchSpace : List (String × String)) (capturedName : Option String)
    (now now2 : Int) (s : AppState) : AppState :=
  hpoFinish aId newId modelId strategy capturedName now2
    (hpoStart newId modelId strategy searchSpace now s)

/-- The whole `updateTrafficSplit` workflow: immediate phase, then the 1000 ms
delay phase. -/
def updateTrafficSplit (aId deploymentId : String) (ts : List (String × Rat))
    (now : Int) (s : AppState) : AppState :=
  updateTrafficSplitFinish aId deploymentId now (updateTrafficSplitStart deploymentId ts s)

/-!
Pointwise specifications of the deploy / retrain / rollback updates, used to
state the functional-correctness claims positionally (via `List.Forall₂`).
-/

/-- How `deployMlModel`'s immediate phase relates an old model record to the
new one: other models untouched; the target model gets the new
`Rolling Update` deployment appended and its `deploymentStatus` set, all other
fields unchanged. -/
def deployPhase1Rel (model : MLModelExtended) (environment newId : String) (now : Int)
    (m m1 : MLModelExtended) : Prop :=
  (m.id ≠ model.id → m1 = m) ∧
  (m.id = model.id →
    m1.deploymentHistory =
      some (m.deploymentHistory.getD [] ++ [newDeploymentRecord newId model environment now]) ∧
    m1.deploymentStatus = some "Rolling Update" ∧
    m1.id = m.id ∧ m1.name = m.name ∧ m1.version = m.version ∧ m1.accuracy = m.accuracy ∧
    m1.status = m.status ∧ m1.performanceHistory = m.performanceHistory ∧
    m1.metricsHistory = m.metricsHistory ∧ m1.hpoRuns = m.hpoRuns)

/-- How the whole `deployMlModel` workflow relates an old model record to the
final one: other models untouched; the target model's `deploymentStatus`
becomes `Deployed` and, whenever the fresh uuid is not already a deployment
id, its history is the old one with the new deployment appended and marked
`Deployed`. -/
def deployPhase2Rel (model : MLModelExtended) (environment newId : String) (now : Int)
    (m m2 : MLModelExtended) : Prop :=
  (m.id ≠ model.id → m2 = m) ∧
  (m.id = model.id →
    m2.deploymentStatus = some "Deployed" ∧
    m2.deploymentHistory =
      some ((m.deploymentHistory.getD [] ++ [newDeploymentRecord newId model environment now]).map
        (fun d => if d.id = newId then { d with status := "Deployed" } else d)) ∧
    ((∀ d ∈ m.deploymentHistory.getD [], d.id ≠ newId) →
      m2.deploymentHistory = some (m.deploymentHistory.getD [] ++
        [{ newDeploymentRecord newId model environment now with status := "Deployed" }])))

/-- How `retrainMlModel`'s immediate phase relates an old model record to the
new one: other models untouched; the target goes to `Training` with its
accuracy lowered by `r * 5` (rounded), every other field unchanged. -/
def retrainPhase1Rel (id : String) (r : Rat) (m m1 : MLModelExtended) : Prop :=
  (m.id ≠ id → m1 = m) ∧
  (m.id = id →
    m1.status = "Training" ∧ m1.accuracy = toFixed2 (m.accuracy - r * 5) ∧
    m1.id = m.id ∧ m1.name = m.name ∧ m1.version = m.version ∧
    m1.performanceHistory = m.performanceHistory ∧ m1.metricsHistory = m.metricsHistory ∧
    m1.hyperparameters = m.hyperparameters ∧ m1.featureImportance = m.featureImportance ∧
    m1.xaiInsights = m.xaiInsights ∧ m1.deploymentStatus = m.deploymentStatus ∧
    m1.deploymentHistory = m.deploymentHistory ∧ m1.costHistory = m.costHistory ∧
    m1.dataDriftHistory = m.dataDriftHistory ∧ m1.hpoRuns = m.hpoRuns)

/-- How `retrainMlModel`'s timer phase relates the intermediate model record
to the final one: other models untouched; the target goes to `Staging` with
its accuracy raised by `r * 7` (rounded) and a freshly generated 30-day
performance history. -/
def retrainPhase2Rel (id : String) (r : Rat) (rs : RandStream) (today : Int)
    (m1 m2 : MLModelExtended) : Prop :=
  (m1.id ≠ id → m2 = m1) ∧
  (m1.id = id →
    m2.status = "Staging" ∧ m2.accuracy = toFixed2 (m1.accuracy + r * 7) ∧
    m2.performanceHistory = (generateMockPerformanceHistory rs today 30).map
      (fun d => { date := d.date, accuracy := d.accuracy }) ∧
    m2.performanceHistory.length = 30 ∧
    m2.id = m1.id ∧ m2.name = m1.name ∧ m2.version = m1.version ∧
    m2.metricsHistory = m1.metricsHistory ∧ m2.deploymentStatus = m1.deploymentStatus ∧
    m2.deploymentHistory = m1.deploymentHistory ∧ m2.hpoRuns = m1.hpoRuns)

/-- How `rollbackDeployment` relates an old model record to the new one: every
field except `deploymentHistory` unchanged, and within the history only the
`status` of deployments with the rolled-back id changes (to `Inactive`). -/
def rollbackModelRel (deploymentId : String) (m m' : MLModelExtended) : Prop :=
  m'.id = m.id ∧ m'.name = m.name ∧ m'.version = m.version ∧ m'.accuracy = m.accuracy ∧
  m'.status = m.status ∧ m'.performanceHistory = m.performanceHistory ∧
  m'.metricsHistory = m.metricsHistory ∧ m'.hyperparameters = m.hyperparameters ∧
  m'.featureImportance = m.featureImportance ∧ m'.xaiInsights = m.xaiInsights ∧
  m'.deploymentStatus = m.deploymentStatus ∧ m'.costHistory = m.costHistory ∧
  m'.dataDriftHistory = m.dataDriftHistory ∧ m'.hpoRuns = m.hpoRuns ∧
  (m.deploymentHistory = none → m'.deploymentHistory = none) ∧
  (∀ hist, m.deploymentHistory = some hist → ∃ hist', m'.deploymentHistory = some hist' ∧
    List.Forall₂ (fun d d' =>
      (d.id = deploymentId → d' = { d with status := "Inactive" }) ∧
      (d.id ≠ deploymentId → d' = d)) hist hist')

/-!
Further concrete fixtures for witness instantiations.
-/

/-- The single performance point generated for one day from the constant
one-half stream, written as the source builds it. -/
def c8Point : PerfPoint :=
  perfEntry (0 - ((0 : Nat) : Int))
    (perfUpdate (perfInit rsHalf) (rsHalf 6) (rsHalf 7) (rsHalf 8) (rsHalf 9) (rsHalf 10)
      (rsHalf 11))

/-- The feature list of the single drift report generated for one day from the
constant zero stream, written as the source builds it. -/
def c2Feats : List DriftFeature :=
  (List.range driftFeatureNames.length).map (fun j =>
    driftFeatureEntry (sub (sub rsZero 0) j) 0 (driftFeatureNames.getD j ""))

/-- The single drift report generated for one day from the constant zero
stream, written as the source builds it. -/
def c2Report : DataDriftReport :=
  { timestamp := 0 - (0 : Int) * 86400000
    features := c2Feats
    overallDriftScore :=
      toFixed2 ((c2Feats.map DriftFeature.driftScore).sum / (driftFeatureNames.length : Rat))
    driftDetected :=
      decide ((1 : Rat) / 4 <
        toFixed2 ((c2Feats.map DriftFeature.driftScore).sum / (driftFeatureNames.length : Rat))) }

/-- A component state with a blank file name, for the validation witness. -/
def blankAnalysisState : AnalysisState :=
  { fileName := "   ", fileContent := "x", analysis := "prev", loading := false, error := "" }

/-!
Helper lemmas: rounding and clamping bounds, basic list facts.
-/

/-- Rounding is monotone on the rationals. -/
theorem round_monotone {x y : Rat} (h : x ≤ y) : round x ≤ round y := by
  rw [round_eq, round_eq]
  exact Int.floor_mono (by linarith)

/-- `toFixed2` unfolded to hundredths. -/
theorem toFixed2_eq (x : Rat) : toFixed2 x = ((round (x * 100) : Int) : Rat) / 100 := by
  unfold toFixed2 toFix
  norm_num

/-- `toFixed2` keeps a value between two hundredth-representable bounds. -/
theorem toFixed2_int_bound {a b : Int} {x : Rat}
    (h1 : (a : Rat) / 100 ≤ x) (h2 : x ≤ (b : Rat) / 100) :
    (a : Rat) / 100 ≤ toFixed2 x ∧ toFixed2 x ≤ (b : Rat) / 100 := by
  have ha : (a : Rat) ≤ x * 100 := by linarith
  have hb : x * 100 ≤ (b : Rat) := by linarith
  have h3 : a ≤ round (x * 100) := by
    have h := round_monotone ha
    rwa [round_intCast] at h
  have h4 : round (x * 100) ≤ b := by
    have h := round_monotone hb
    rwa [round_intCast] at h
  have h3' : (a : Rat) ≤ ((round (x * 100) : Int) : Rat) := by exact_mod_cast h3
  have h4' : ((round (x * 100) : Int) : Rat) ≤ (b : Rat) := by exact_mod_cast h4
  rw [toFixed2_eq]
  constructor <;> linarith

/-- The clamp stays between its bounds whenever they are ordered. -/
theorem clampR_bounds {lo hi : Rat} (x : Rat) (h : lo ≤ hi) :
    lo ≤ clampR lo hi x ∧ clampR lo hi x ≤ hi :=
  ⟨le_max_left _ _, max_le h (min_le_left _ _)⟩

/-- Clamp-then-round stays between hundredth-representable bounds. -/
theorem toFixed2_clampR_bound (a b : Int) {lo hi : Rat} (v : Rat)
    (hlo : lo = (a : Rat) / 100) (hhi : hi = (b : Rat) / 100) (h : lo ≤ hi) :
    lo ≤ toFixed2 (clampR lo hi v) ∧ toFixed2 (clampR lo hi v) ≤ hi := by
  obtain ⟨h1, h2⟩ := @clampR_bounds lo hi v h
  subst hlo hhi
  exact toFixed2_int_bound h1 h2

/-- `perfLoop` produces one entry per remaining iteration. -/
theorem perfLoop_length (rs : RandStream) (today : Int) (rem : Nat) :
    ∀ (idx : Nat) (st : PerfAcc), (perfLoop rs today idx rem st).length = rem := by
  induction rem with
  | zero => intro idx st; rfl
  | succ r ih => intro idx st; simp [perfLoop, ih]

/-- Every entry of `perfLoop` has its date in `(today - rem, today]`. -/
theorem perfLoop_date_bound (rs : RandStream) (today : Int) (rem : Nat) :
    ∀ (idx : Nat) (st : PerfAcc) (e : PerfPoint), e ∈ perfLoop rs today idx rem st →
      today - rem < e.date ∧ e.date ≤ today := by
  induction rem with
  | zero => intro idx st e h; simp [perfLoop] at h
  | succ r ih =>
    intro idx st e h
    simp only [perfLoop, List.mem_cons] at h
    rcases h with rfl | h
    · simp only [perfEntry]
      push_cast
      omega
    · obtain ⟨h1, h2⟩ := ih (idx + 6) _ e h
      push_cast at h1 h2 ⊢
      omega

/-- `perfLoop` lists dates in strictly ascending order. -/
theorem perfLoop_sorted (rs : RandStream) (today : Int) (rem : Nat) :
    ∀ (idx : Nat) (st : PerfAcc),
      (perfLoop rs today idx rem st).Pairwise (fun a b => a.date < b.date) := by
  induction rem with
  | zero => intro idx st; simp [perfLoop]
  | succ r ih =>
    intro idx st
    simp only [perfLoop]
    refine List.Pairwise.cons ?_ (ih _ _)
    intro e he
    obtain ⟨h1, _⟩ := perfLoop_date_bound rs today r (idx + 6) _ e he
    simp only [perfEntry]
    omega

/-- Every entry of `perfLoop` respects the clamped metric ranges. -/
theorem perfLoop_bounds (rs : RandStream) (today : Int) (rem : Nat) :
    ∀ (idx : Nat) (st : PerfAcc) (e : PerfPoint), e ∈ perfLoop rs today idx rem st →
      (70 ≤ e.accuracy ∧ e.accuracy ≤ 99) ∧
      (7 / 10 ≤ e.precision ∧ e.precision ≤ 99 / 100) ∧
      (7 / 10 ≤ e.recall ∧ e.recall ≤ 99 / 100) ∧
      (7 / 10 ≤ e.f1Score ∧ e.f1Score ≤ 99 / 100) ∧
      (5 ≤ e.latency ∧ e.latency ≤ 200) ∧
      (50 ≤ e.throughput ∧ e.throughput ≤ 2000) := by
  induction rem with
  | zero => intro idx st e h; simp [perfLoop] at h
  | succ r ih =>
    intro idx st e h
    simp only [perfLoop, List.mem_cons] at h
    rcases h with rfl | h
    · simp only [perfEntry, perfUpdate]
      refine ⟨?_, ?_, ?_, ?_, ?_, ?_⟩
      · exact toFixed2_clampR_bound 7000 9900 _ (by norm_num) (by norm_num) (by norm_num)
      · exact toFixed2_clampR_bound 70 99 _ (by norm_num) (by norm_num) (by norm_num)
      · exact toFixed2_clampR_bound 70 99 _ (by norm_num) (by norm_num) (by norm_num)
      · exact toFixed2_clampR_bound 70 99 _ (by norm_num) (by norm_num) (by norm_num)
      · exact toFixed2_clampR_bound 500 20000 _ (by norm_num) (by norm_num) (by norm_num)
      · exact toFixed2_clampR_bound 5000 200000 _ (by norm_num) (by norm_num) (by norm_num)
    · exact ih _ _ e h

/-- C8: for every number of days, `generateMockPerformanceHistory` returns
exactly that many entries, in strictly ascending date order, and every entry's
metrics lie in the clamped ranges 70-99 (accuracy), 0.7-0.99 (precision,
recall, f1Score), 5-200 (latency) and 50-2000 (throughput). -/
theorem c8_performance_history_shape (rs : RandStream) (today : Int) (days : Nat) :
    (generateMockPerformanceHistory rs today days).length = days ∧
    (generateMockPerformanceHistory rs today days).Pairwise (fun a b => a.date < b.date) ∧
    ∀ e ∈ generateMockPerformanceHistory rs today days,
      (70 ≤ e.accuracy ∧ e.accuracy ≤ 99) ∧
      (7 / 10 ≤ e.precision ∧ e.precision ≤ 99 / 100) ∧
      (7 / 10 ≤ e.recall ∧ e.recall ≤ 99 / 100) ∧
      (7 / 10 ≤ e.f1Score ∧ e.f1Score ≤ 99 / 100) ∧
      (5 ≤ e.latency ∧ e.latency ≤ 200) ∧
      (50 ≤ e.throughput ∧ e.throughput ≤ 2000) :=
  ⟨perfLoop_length rs today days 6 (perfInit rs),
   perfLoop_sorted rs today days 6 (perfInit rs),
   fun e he => perfLoop_bounds rs today days 6 (perfInit rs) e he⟩

/-- Witness for C8 at a concrete stream, date and day count. -/
theorem c8_performance_history_shape_witness :
    (c8Point ∈ generateMockPerformanceHistory rsHalf 0 1) ∧
    ((70 ≤ c8Point.accuracy ∧ c8Point.accuracy ≤ 99) ∧
     (7 / 10 ≤ c8Point.precision ∧ c8Point.precision ≤ 99 / 100) ∧
     (7 / 10 ≤ c8Point.recall ∧ c8Point.recall ≤ 99 / 100) ∧
     (7 / 10 ≤ c8Point.f1Score ∧ c8Point.f1Score ≤ 99 / 100) ∧
     (5 ≤ c8Point.latency ∧ c8Point.latency ≤ 200) ∧
     (50 ≤ c8Point.throughput ∧ c8Point.throughput ≤ 2000)) := by
  have hm : c8Point ∈ generateMockPerformanceHistory rsHalf 0 1 := by
    simp [c8Point, generateMockPerformanceHistory, perfLoop]
  exact ⟨hm, (c8_performance_history_shape rsHalf 0 1).2.2 _ hm⟩

/-!
C2: the drift reports do carry code-enforced invariants.
-/

/-- C2 (amended): every report of `generateMockDataDriftReport` satisfies two
code-enforced relations: `driftDetected` holds exactly when
`overallDriftScore` exceeds 0.25, and `overallDriftScore` is the mean of the
five per-feature drift scores rounded to two decimals. -/
theorem c2_drift_report_invariants (rs : RandStream) (now : Int) (days : Nat) :
    ∀ rep ∈ generateMockDataDriftReport rs now days,
      rep.driftDetected = decide ((1 : Rat) / 4 < rep.overallDriftScore) ∧
      rep.overallDriftScore =
        toFixed2 ((rep.features.map DriftFeature.driftScore).sum / 5) ∧
      rep.features.length = 5 := by
  unfold generateMockDataDriftReport
  induction days with
  | zero => intro rep h; simp [driftLoop] at h
  | succ r ih =>
    intro rep h
    simp only [driftLoop, List.mem_cons] at h
    rcases h with rfl | h
    · refine ⟨rfl, ?_, ?_⟩
      · show toFixed2 (_ / (driftFeatureNames.length : Rat)) = toFixed2 (_ / 5)
        norm_num [driftFeatureNames]
      · simp [driftFeatureNames]
    · exact ih rep h

/-- Counterexample to C2 as stated: at two explicit streams the generator's
single report evaluates so that `driftDetected` is exactly the comparison of
`overallDriftScore` with 0.25 — the flag and the score are tied by code, they
are not free of any enforced relation. -/
theorem c2_counterexample :
    (generateMockDataDriftReport rsHigh 0 1).map
        (fun r => (r.driftDetected, r.overallDriftScore)) = [(true, 45 / 100)] ∧
    (generateMockDataDriftReport rsZero 0 1).map
        (fun r => (r.driftDetected, r.overallDriftScore)) = [(false, 0)] := by
  have h5 : List.range 5 = [0, 1, 2, 3, 4] := by rfl
  constructor
  · simp only [generateMockDataDriftReport, driftLoop, h5, List.map_cons, List.map_nil,
      driftFeatureEntry, sub, rsHigh, List.sum_cons, List.sum_nil, driftFeatureNames,
      List.length_cons, List.length_nil]
    norm_num [toFixed2_eq, round_ofNat]
  · simp only [generateMockDataDriftReport, driftLoop, h5, List.map_cons, List.map_nil,
      driftFeatureEntry, sub, rsZero, List.sum_cons, List.sum_nil, driftFeatureNames,
      List.length_cons, List.length_nil]
    norm_num [toFixed2_eq, round_zero]

/-- Witness for the amended C2 at a concrete stream and day count. -/
theorem c2_drift_report_invariants_witness :
    (c2Report ∈ generateMockDataDriftReport rsZero 0 1) ∧
    (c2Report.driftDetected = decide ((1 : Rat) / 4 < c2Report.overallDriftScore) ∧
     c2Report.overallDriftScore =
       toFixed2 ((c2Report.features.map DriftFeature.driftScore).sum / 5) ∧
     c2Report.features.length = 5) := by
  have hm : c2Report ∈ generateMockDataDriftReport rsZero 0 1 := by
    simp [c2Report, c2Feats, generateMockDataDriftReport, driftLoop]
  exact ⟨hm, c2_drift_report_invariants rsZero 0 1 _ hm⟩

/-!
C10: input validation of `handleAnalyze`.
-/

/-- C10: with a blank (empty or whitespace-only) file name or content,
`handleAnalyze` only sets the error message — analysis, loading and the inputs
are untouched — and does not attempt the AI call; the call is attempted
exactly when both inputs are non-blank. -/
theorem c10_handleAnalyze_validation (st : AnalysisState) (res : Except String String) :
    (isBlank st.fileName ∨ isBlank st.fileContent →
      handleAnalyze st res = ({ st with error := validationMessage }, false)) ∧
    ((handleAnalyze st res).2 = true ↔ ¬ isBlank st.fileName ∧ ¬ isBlank st.fileContent) := by
  constructor
  · intro h
    simp [handleAnalyze, h]
  · unfold handleAnalyze
    by_cases h : (isBlank st.fileName : Prop) ∨ (isBlank st.fileContent : Prop)
    · simp only [if_pos h]
      simp only [Bool.false_eq_true, false_iff]
      tauto
    · simp only [if_neg h]
      push_neg at h
      cases res <;> simpa using h

/-- Witness for C10: a whitespace-only file name is rejected without the AI
call and with analysis and loading untouched. -/
theorem c10_handleAnalyze_validation_witness :
    ((isBlank blankAnalysisState.fileName ∨ isBlank blankAnalysisState.fileContent) : Prop) ∧
    handleAnalyze blankAnalysisState (Except.ok "result") =
      ({ blankAnalysisState with error := validationMessage }, false) := by
  have hb : (isBlank blankAnalysisState.fileName ∨ isBlank blankAnalysisState.fileContent : Prop) :=
    Or.inl (by decide)
  exact ⟨hb, (c10_handleAnalyze_validation blankAnalysisState (Except.ok "result")).1 hb⟩

/-!
C7: determinism of the generators and the context operations given the random
stream, the clock and the prior state.
-/

/-- C7: with the same `Math.random()` stream, the same clock readings and the
same prior state, every context-operation phase, the initial mock state and
the synthetic-series generators produce identical results — there is no other
input and no external store. -/
theorem c7_determinism (rs rs' : RandStream) (now now' today today' : Int)
    (hrs : ∀ n, rs n = rs' n) (hnow : now = now') (htoday : today = today') :
    (∀ (op : Op) (s : AppState), applyOp op rs now today s = applyOp op rs' now' today' s) ∧
    (∀ ids : Nat → String, initState rs ids now today = initState rs' ids now' today') ∧
    (∀ days, generateMockPerformanceHistory rs today days =
      generateMockPerformanceHistory rs' today' days) ∧
    (∀ days, generateMockDataDriftReport rs now days =
      generateMockDataDriftReport rs' now' days) := by
  have h : rs = rs' := funext hrs
  subst h
  subst hnow
  subst htoday
  exact ⟨fun _ _ => rfl, fun _ => rfl, fun _ => rfl, fun _ => rfl⟩

/-- Witness for C7 at a concrete stream, clock and operation. -/
theorem c7_determinism_witness :
    applyOp (Op.rollbackStartOp "dep-1") rsZero 0 0 oneModelState =
      applyOp (Op.rollbackStartOp "dep-1") rsZero 0 0 oneModelState :=
  (c7_determinism rsZero rsZero 0 0 0 0 (fun _ => rfl) rfl rfl).1
    (Op.rollbackStartOp "dep-1") oneModelState

/-!
C9: the audit log is append-only.
-/

/-- C9: every context-operation phase either leaves the audit log unchanged or
appends exactly one entry at its end (so existing entries survive in order),
and neither phase of `retrainMlModel` ever appends an entry. -/
theorem c9_audit_append_only :
    (∀ s s', Step s s' →
      s'.mockAuditLogs = s.mockAuditLogs ∨ ∃ e, s'.mockAuditLogs = s.mockAuditLogs ++ [e]) ∧
    (∀ (id : String) (r : Rat) (s : AppState),
      (retrainStart id r s).mockAuditLogs = s.mockAuditLogs) ∧
    (∀ (id : String) (r : Rat) (rs : RandStream) (today : Int) (s : AppState),
      (retrainFinish id r rs today s).mockAuditLogs = s.mockAuditLogs) := by
  refine ⟨?_, fun _ _ _ => rfl, fun _ _ _ _ _ => rfl⟩
  rintro s s' ⟨op, rs, now, today, rfl⟩
  cases op <;> first
    | exact Or.inl rfl
    | exact Or.inr ⟨_, rfl⟩

/-- Witness for C9 at a concrete step. -/
theorem c9_audit_append_only_witness :
    (applyOp (Op.rollbackFinishOp "audit-1" "dep-1") rsZero 0 0 oneModelState).mockAuditLogs =
        oneModelState.mockAuditLogs ∨
      ∃ e, (applyOp (Op.rollbackFinishOp "audit-1" "dep-1") rsZero 0 0
          oneModelState).mockAuditLogs = oneModelState.mockAuditLogs ++ [e] :=
  c9_audit_append_only.1 oneModelState _
    ⟨Op.rollbackFinishOp "audit-1" "dep-1", rsZero, 0, 0, rfl⟩

/-!
C1: no record of any entity kind is ever deleted by a context operation.
-/

/-- Membership in a concatenation of id lists. -/
theorem mem_concatIds {b : String} : ∀ {L : List (List String)},
    b ∈ concatIds L ↔ ∃ l ∈ L, b ∈ l := by
  intro L
  induction L with
  | nil => simp [concatIds]
  | cons l ls ih => simp [concatIds, List.mem_append, ih]

/-- Mapping with a field-preserving function preserves the projected list. -/
theorem map_field_eq {α β : Type} (l : List α) (f : α → α) (g : α → β)
    (h : ∀ a, g (f a) = g a) : (l.map f).map g = l.map g := by
  induction l with
  | nil => rfl
  | cons a t ih => simp [h a, ih]

/-- Any step whose model update preserves model ids and only grows the
per-model deployment / HPO id lists, whose alert update preserves alert ids,
which leaves features alone and at most appends to the audit log, preserves
membership of every id collection. -/
theorem ids_preserved_of_shape {s s' : AppState} {f : MLModelExtended → MLModelExtended}
    (hmodels : s'.mockModels = s.mockModels.map f)
    (hid : ∀ m, (f m).id = m.id)
    (hdep : ∀ m, ∀ b ∈ deploymentIdsOf m, b ∈ deploymentIdsOf (f m))
    (hhpo : ∀ m, ∀ b ∈ hpoIdsOf m, b ∈ hpoIdsOf (f m))
    {g : MLAlertExtended → MLAlertExtended}
    (halerts : s'.mockAlerts = s.mockAlerts.map g)
    (hgid : ∀ a, (g a).id = a.id)
    (hfeat : s'.mockFeatures = s.mockFeatures)
    (haudit : s'.mockAuditLogs = s.mockAuditLogs ∨
      ∃ e, s'.mockAuditLogs = s.mockAuditLogs ++ [e]) :
    (∀ i ∈ modelIds s, i ∈ modelIds s') ∧ (∀ i ∈ deploymentIds s, i ∈ deploymentIds s') ∧
    (∀ i ∈ alertIds s, i ∈ alertIds s') ∧ (∀ i ∈ featureIds s, i ∈ featureIds s') ∧
    (∀ i ∈ hpoIds s, i ∈ hpoIds s') ∧ (∀ i ∈ auditIds s, i ∈ auditIds s') := by
  refine ⟨?_, ?_, ?_, ?_, ?_, ?_⟩
  · intro i hi
    have h : modelIds s' = modelIds s := by
      unfold modelIds
      rw [hmodels, map_field_eq _ _ _ hid]
    rw [h]
    exact hi
  · intro i hi
    unfold deploymentIds at hi ⊢
    rw [hmodels]
    rw [mem_concatIds] at hi ⊢
    obtain ⟨li, hli, hbli⟩ := hi
    obtain ⟨a, ha, rfl⟩ := List.mem_map.mp hli
    exact ⟨deploymentIdsOf (f a), List.mem_map_of_mem _ (List.mem_map_of_mem _ ha),
      hdep a i hbli⟩
  · intro i hi
    have h : alertIds s' = alertIds s := by
      unfold alertIds
      rw [halerts, map_field_eq _ _ _ hgid]
    rw [h]
    exact hi
  · intro i hi
    unfold featureIds
    rw [hfeat]
    exact hi
  · intro i hi
    unfold hpoIds at hi ⊢
    rw [hmodels]
    rw [mem_concatIds] at hi ⊢
    obtain ⟨li, hli, hbli⟩ := hi
    obtain ⟨a, ha, rfl⟩ := List.mem_map.mp hli
    exact ⟨hpoIdsOf (f a), List.mem_map_of_mem _ (List.mem_map_of_mem _ ha), hhpo a i hbli⟩
  · intro i hi
    unfold auditIds at hi ⊢
    rcases haudit with h | ⟨e, h⟩
    · rw [h]; exact hi
    · rw [h, List.map_append]
      exact List.mem_append_left _ hi

/-- C1: no entity record is ever deleted — across every context-operation
phase, all model, deployment, alert, feature, HPO-run and audit-log ids
present beforehand are still present afterwards. -/
theorem c1_no_deletion (s s' : AppState) (h : Step s s') :
    (∀ i ∈ modelIds s, i ∈ modelIds s') ∧ (∀ i ∈ deploymentIds s, i ∈ deploymentIds s') ∧
    (∀ i ∈ alertIds s, i ∈ alertIds s') ∧ (∀ i ∈ featureIds s, i ∈ featureIds s') ∧
    (∀ i ∈ hpoIds s, i ∈ hpoIds s') ∧ (∀ i ∈ auditIds s, i ∈ auditIds s') := by
  obtain ⟨op, rs, now, today, rfl⟩ := h
  cases op with
  | retrainStartOp id =>
    refine ids_preserved_of_shape rfl ?_ ?_ ?_ (List.map_id _).symm (fun _ => rfl) rfl
      (Or.inl rfl)
    · intro m; by_cases hm : m.id = id <;> simp [hm]
    · intro m b hb
      by_cases hm : m.id = id <;> simp only [deploymentIdsOf, hm, if_pos, if_neg,
        reduceIte] <;> exact hb
    · intro m b hb
      by_cases hm : m.id = id <;> simp only [hpoIdsOf, hm, reduceIte] <;> exact hb
  | retrainFinishOp id =>
    refine ids_preserved_of_shape rfl ?_ ?_ ?_ (List.map_id _).symm (fun _ => rfl) rfl
      (Or.inl rfl)
    · intro m; by_cases hm : m.id = id <;> simp [hm]
    · intro m b hb
      by_cases hm : m.id = id <;> simp only [deploymentIdsOf, hm, reduceIte] <;> exact hb
    · intro m b hb
      by_cases hm : m.id = id <;> simp only [hpoIdsOf, hm, reduceIte] <;> exact hb
  | deployStartOp newId model environment =>
    refine ids_preserved_of_shape rfl ?_ ?_ ?_ (List.map_id _).symm (fun _ => rfl) rfl
      (Or.inl rfl)
    · intro m; by_cases hm : m.id = model.id <;> simp [hm]
    · intro m b hb
      by_cases hm : m.id = model.id
      · simp only [deploymentIdsOf, hm, reduceIte, Option.getD_some, List.map_append]
        exact List.mem_append_left _ hb
      · simp only [deploymentIdsOf, hm, reduceIte]
        exact hb
    · intro m b hb
      by_cases hm : m.id = model.id <;> simp only [hpoIdsOf, hm, reduceIte] <;> exact hb
  | deployFinishOp aId newId model environment =>
    refine ids_preserved_of_shape rfl ?_ ?_ ?_ (List.map_id _).symm (fun _ => rfl) rfl
      (Or.inr ⟨_, rfl⟩)
    · intro m; by_cases hm : m.id = model.id <;> simp [hm]
    · intro m b hb
      by_cases hm : m.id = model.id
      · cases hdh : m.deploymentHistory with
        | none => simp [deploymentIdsOf, hdh] at hb
        | some hist =>
          simp only [deploymentIdsOf, hdh, Option.getD_some] at hb
          simp only [deploymentIdsOf, hm, reduceIte, hdh, Option.map_some', Option.getD_some]
          rw [map_field_eq _ _ _ (fun d => by by_cases hd : d.id = newId <;> simp [hd])]
          exact hb
      · simp only [deploymentIdsOf, hm, reduceIte]
        exact hb
    · intro m b hb
      by_cases hm : m.id = model.id <;> simp only [hpoIdsOf, hm, reduceIte] <;> exact hb
  | rollbackStartOp deploymentId =>
    refine ids_preserved_of_shape rfl ?_ ?_ ?_ (List.map_id _).symm (fun _ => rfl) rfl
      (Or.inl rfl)
    · intro m; simp
    · intro m b hb
      cases hdh : m.deploymentHistory with
      | none => simp [deploymentIdsOf, hdh] at hb
      | some hist =>
        simp only [deploymentIdsOf, hdh, Option.getD_some] at hb
        simp only [deploymentIdsOf, hdh, Option.map_some', Option.getD_some]
        rw [map_field_eq _ _ _ (fun d => by by_cases hd : d.id = deploymentId <;> simp [hd])]
        exact hb
    · intro m b hb
      exact hb
  | rollbackFinishOp aId deploymentId =>
    exact ids_preserved_of_shape (List.map_id _).symm (fun _ => rfl) (fun _ _ hb => hb)
      (fun _ _ hb => hb) (List.map_id _).symm (fun _ => rfl) rfl (Or.inr ⟨_, rfl⟩)
  | trafficStartOp deploymentId ts =>
    refine ids_preserved_of_shape rfl ?_ ?_ ?_ (List.map_id _).symm (fun _ => rfl) rfl
      (Or.inl rfl)
    · intro m; simp
    · intro m b hb
      cases hdh : m.deploymentHistory with
      | none => simp [deploymentIdsOf, hdh] at hb
      | some hist =>
        simp only [deploymentIdsOf, hdh, Option.getD_some] at hb
        simp only [deploymentIdsOf, hdh, Option.map_some', Option.getD_some]
        rw [map_field_eq _ _ _ (fun d => by by_cases hd : d.id = deploymentId <;> simp [hd])]
        exact hb
    · intro m b hb
      exact hb
  | trafficFinishOp aId deploymentId =>
    exact ids_preserved_of_shape (List.map_id _).symm (fun _ => rfl) (fun _ _ hb => hb)
      (fun _ _ hb => hb) (List.map_id _).symm (fun _ => rfl) rfl (Or.inr ⟨_, rfl⟩)
  | hpoStartOp newId modelId strategy searchSpace =>
    refine ids_preserved_of_shape rfl ?_ ?_ ?_ (List.map_id _).symm (fun _ => rfl) rfl
      (Or.inl rfl)
    · intro m; by_cases hm : m.id = modelId <;> simp [hm]
    · intro m b hb
      by_cases hm : m.id = modelId <;> simp only [deploymentIdsOf, hm, reduceIte] <;> exact hb
    · intro m b hb
      by_cases hm : m.id = modelId
      · simp only [hpoIdsOf, hm, reduceIte, Option.getD_some, List.map_append]
        exact List.mem_append_left _ hb
      · simp only [hpoIdsOf, hm, reduceIte]
        exact hb
  | hpoFinishOp aId newId modelId strategy capturedName =>
    refine ids_preserved_of_shape rfl ?_ ?_ ?_ (List.map_id _).symm (fun _ => rfl) rfl
      (Or.inr ⟨_, rfl⟩)
    · intro m; by_cases hm : m.id = modelId <;> simp [hm]
    · intro m b hb
      by_cases hm : m.id = modelId <;> simp only [deploymentIdsOf, hm, reduceIte] <;> exact hb
    · intro m b hb
      by_cases hm : m.id = modelId
      · cases hdh : m.hpoRuns with
        | none => simp [hpoIdsOf, hdh] at hb
        | some runs =>
          simp only [hpoIdsOf, hdh, Option.getD_some] at hb
          simp only [hpoIdsOf, hm, reduceIte, hdh, Option.map_some', Option.getD_some]
          rw [map_field_eq _ _ _ (fun run => by by_cases hd : run.id = newId <;> simp [hd])]
          exact hb
      · simp only [hpoIdsOf, hm, reduceIte]
        exact hb
  | ackAlertOp aId alertId notes =>
    refine ids_preserved_of_shape (List.map_id _).symm (fun _ => rfl) (fun _ _ hb => hb)
      (fun _ _ hb => hb) rfl ?_ rfl (Or.inr ⟨_, rfl⟩)
    intro a
    by_cases ha : a.id = alertId <;> simp [ha]
  | resolveAlertOp aId alertId notes =>
    refine ids_preserved_of_shape (List.map_id _).symm (fun _ => rfl) (fun _ _ hb => hb)
      (fun _ _ hb => hb) rfl ?_ rfl (Or.inr ⟨_, rfl⟩)
    intro a
    by_cases ha : a.id = alertId <;> simp [ha]

/-- Witness for C1 at a concrete step. -/
theorem c1_no_deletion_witness :
    (∀ i ∈ modelIds oneModelState,
        i ∈ modelIds (applyOp (Op.ackAlertOp "audit-2" "alert-1" "n") rsZero 0 0 oneModelState)) ∧
    (∀ i ∈ deploymentIds oneModelState,
        i ∈ deploymentIds (applyOp (Op.ackAlertOp "audit-2" "alert-1" "n") rsZero 0 0 oneModelState)) ∧
    (∀ i ∈ alertIds oneModelState,
        i ∈ alertIds (applyOp (Op.ackAlertOp "audit-2" "alert-1" "n") rsZero 0 0 oneModelState)) ∧
    (∀ i ∈ featureIds oneModelState,
        i ∈ featureIds (applyOp (Op.ackAlertOp "audit-2" "alert-1" "n") rsZero 0 0 oneModelState)) ∧
    (∀ i ∈ hpoIds oneModelState,
        i ∈ hpoIds (applyOp (Op.ackAlertOp "audit-2" "alert-1" "n") rsZero 0 0 oneModelState)) ∧
    (∀ i ∈ auditIds oneModelState,
        i ∈ auditIds (applyOp (Op.ackAlertOp "audit-2" "alert-1" "n") rsZero 0 0 oneModelState)) :=
  c1_no_deletion oneModelState _ ⟨Op.ackAlertOp "audit-2" "alert-1" "n", rsZero, 0, 0, rfl⟩

/-!
C5: the simulated workflows have no failure branch.
-/

/-- The initial mock state is failure-free: no HPO runs exist and the seeded
deployments are `Deployed` and `Canary`. -/
theorem initState_noFailures (rs : RandStream) (ids : Nat → String) (now today : Int) :
    noFailures (initState rs ids now today) := by
  intro m hm
  simp only [initState, List.mem_cons, List.not_mem_nil, or_false] at hm
  rcases hm with rfl | rfl | rfl
  · constructor
    · intro run hrun
      simp [initModel123] at hrun
    · intro d hd
      simp only [initModel123, Option.getD_some, generateMockDeployments] at hd
      rcases List.mem_cons.mp hd with rfl | hd2
      · exact Or.inl rfl
      · rcases List.mem_cons.mp hd2 with rfl | h3
        · exact Or.inr (Or.inl rfl)
        · simp at h3
  · constructor
    · intro run hrun
      simp [initModel456] at hrun
    · intro d hd
      simp [initModel456] at hd
  · constructor
    · intro run hrun
      simp [initModel789] at hrun
    · intro d hd
      simp [initModel789] at hd

/-- A model-list map whose update preserves failure freedom preserves the
state invariant. -/
theorem noFailures_map {s s' : AppState} {f : MLModelExtended → MLModelExtended}
    (hmodels : s'.mockModels = s.mockModels.map f)
    (hf : ∀ m, modelOk m → modelOk (f m)) (h : noFailures s) : noFailures s' := by
  intro m' hm'
  rw [hmodels] at hm'
  obtain ⟨m, hm, rfl⟩ := List.mem_map.mp hm'
  exact hf m (h m hm)

/-- Every context-operation phase preserves failure freedom. -/
theorem step_noFailures {s s' : AppState} (hs : noFailures s) (h : Step s s') :
    noFailures s' := by
  obtain ⟨op, rs, now, today, rfl⟩ := h
  cases op with
  | retrainStartOp id =>
    refine noFailures_map rfl ?_ hs
    intro m hm
    by_cases hmid : m.id = id <;> simp only [modelOk, hmid, reduceIte] <;> exact hm
  | retrainFinishOp id =>
    refine noFailures_map rfl ?_ hs
    intro m hm
    by_cases hmid : m.id = id <;> simp only [modelOk, hmid, reduceIte] <;> exact hm
  | deployStartOp newId model environment =>
    refine noFailures_map rfl ?_ hs
    intro m hm
    by_cases hmid : m.id = model.id
    · refine ⟨?_, ?_⟩
      · simp only [hmid, reduceIte]
        exact hm.1
      · intro d hd
        simp only [hmid, reduceIte, Option.getD_some] at hd
        rcases List.mem_append.mp hd with hd1 | hd2
        · exact hm.2 d hd1
        · rcases List.mem_singleton.mp hd2 with rfl
          exact Or.inr (Or.inr (Or.inl rfl))
    · simp only [modelOk, hmid, reduceIte]
      exact hm
  | deployFinishOp aId newId model environment =>
    refine noFailures_map rfl ?_ hs
    intro m hm
    by_cases hmid : m.id = model.id
    · refine ⟨?_, ?_⟩
      · simp only [hmid, reduceIte]
        exact hm.1
      · intro d hd
        simp only [hmid, reduceIte] at hd
        cases hdh : m.deploymentHistory with
        | none => rw [hdh] at hd; simp at hd
        | some hist =>
          rw [hdh] at hd
          simp only [Option.map_some', Option.getD_some] at hd
          obtain ⟨d0, hd0, rfl⟩ := List.mem_map.mp hd
          have h0 := hm.2 d0 (by rw [hdh]; simpa using hd0)
          by_cases hid0 : d0.id = newId
          · simp only [hid0, reduceIte]
            exact Or.inl rfl
          · simp only [hid0, reduceIte]
            exact h0
    · simp only [modelOk, hmid, reduceIte]
      exact hm
  | rollbackStartOp deploymentId =>
    refine noFailures_map rfl ?_ hs
    intro m hm
    refine ⟨hm.1, ?_⟩
    intro d hd
    cases hdh : m.deploymentHistory with
    | none => rw [hdh] at hd; simp at hd
    | some hist =>
      rw [hdh] at hd
      simp only [Option.map_some', Option.getD_some] at hd
      obtain ⟨d0, hd0, rfl⟩ := List.mem_map.mp hd
      have h0 := hm.2 d0 (by rw [hdh]; simpa using hd0)
      by_cases hid0 : d0.id = deploymentId
      · simp only [hid0, reduceIte]
        exact Or.inr (Or.inr (Or.inr rfl))
      · simp only [hid0, reduceIte]
        exact h0
  | rollbackFinishOp aId deploymentId =>
    exact noFailures_map (List.map_id _).symm (fun _ hm => hm) hs
  | trafficStartOp deploymentId ts =>
    refine noFailures_map rfl ?_ hs
    intro m hm
    refine ⟨hm.1, ?_⟩
    intro d hd
    cases hdh : m.deploymentHistory with
    | none => rw [hdh] at hd; simp at hd
    | some hist =>
      rw [hdh] at hd
      simp only [Option.map_some', Option.getD_some] at hd
      obtain ⟨d0, hd0, rfl⟩ := List.mem_map.mp hd
      have h0 := hm.2 d0 (by rw [hdh]; simpa using hd0)
      by_cases hid0 : d0.id = deploymentId
      · simp only [hid0, reduceIte]
        exact h0
      · simp only [hid0, reduceIte]
        exact h0
  | trafficFinishOp aId deploymentId =>
    exact noFailures_map (List.map_id _).symm (fun _ hm => hm) hs
  | hpoStartOp newId modelId strategy searchSpace =>
    refine noFailures_map rfl ?_ hs
    intro m hm
    by_cases hmid : m.id = modelId
    · refine ⟨?_, ?_⟩
      · intro run hrun
        simp only [hmid, reduceIte, Option.getD_some] at hrun
        rcases List.mem_append.mp hrun with h1 | h2
        · exact hm.1 run h1
        · rcases List.mem_singleton.mp h2 with rfl
          refine ⟨Or.inl rfl, ?_⟩
          intro hco
          exact absurd hco (by simp [newHPORunRecord])
      · simp only [hmid, reduceIte]
        exact hm.2
    · simp only [modelOk, hmid, reduceIte]
      exact hm
  | hpoFinishOp aId newId modelId strategy capturedName =>
    refine noFailures_map rfl ?_ hs
    intro m hm
    by_cases hmid : m.id = modelId
    · refine ⟨?_, ?_⟩
      · intro run hrun
        simp only [hmid, reduceIte] at hrun
        cases hdh : m.hpoRuns with
        | none => rw [hdh] at hrun; simp at hrun
        | some runs =>
          rw [hdh] at hrun
          simp only [Option.map_some', Option.getD_some] at hrun
          obtain ⟨r0, hr0, rfl⟩ := List.mem_map.mp hrun
          have h0 := hm.1 r0 (by rw [hdh]; simpa using hr0)
          by_cases hid0 : r0.id = newId
          · simp only [hid0, reduceIte]
            exact ⟨Or.inr rfl, fun _ => rfl⟩
          · simp only [hid0, reduceIte]
            exact h0
      · simp only [hmid, reduceIte]
        exact hm.2
    · simp only [modelOk, hmid, reduceIte]
      exact hm
  | ackAlertOp aId alertId notes =>
    exact noFailures_map (List.map_id _).symm (fun _ hm => hm) hs
  | resolveAlertOp aId alertId notes =>
    exact noFailures_map (List.map_id _).symm (fun _ hm => hm) hs

/-- C5: in every state reachable from the initial mock state, no HPO run is
`Failed` or `Pending` — every run is `Running` or `Completed`, a completed run
records `bestMetricValue` 0.93 — no deployment is in a failing status, and the
run appended by `createHPOptionRun` starts out `Running`. -/
theorem c5_no_failure_branch (rs : RandStream) (ids : Nat → String) (now today : Int)
    (s : AppState) (h : Reachable (initState rs ids now today) s) :
    noFailures s ∧
    ∀ (newId modelId strategy : String) (searchSpace : List (String × String)) (t : Int),
      (newHPORunRecord newId modelId strategy searchSpace t).status = "Running" := by
  refine ⟨?_, fun _ _ _ _ _ => rfl⟩
  induction h with
  | refl => exact initState_noFailures rs ids now today
  | tail _ hstep ih => exact step_noFailures ih hstep

/-- Witness for C5 at the initial state itself. -/
theorem c5_no_failure_branch_witness :
    noFailures (initState rsHalf idsFix 0 0) ∧
    ∀ (newId modelId strategy : String) (searchSpace : List (String × String)) (t : Int),
      (newHPORunRecord newId modelId strategy searchSpace t).status = "Running" :=
  c5_no_failure_branch rsHalf idsFix 0 0 _ Relation.ReflTransGen.refl

/-!
C3 / C4 / C6: functional correctness and frame conditions of the deploy,
retrain and rollback workflows.
-/

/-- A list is pointwise related to its image under a map. -/
theorem forall₂_map_self {α : Type} (R : α → α → Prop) (f : α → α) (l : List α)
    (h : ∀ a ∈ l, R a (f a)) : List.Forall₂ R l (l.map f) := by
  induction l with
  | nil =>
    exact List.Forall₂.nil
  | cons a t ih =>
    exact List.Forall₂.cons (h a (List.Mem.head t)) (ih fun b hb => h b (List.Mem.tail a hb))

/-- C3: the deploy workflow is exactly set-state, fixed timer, set-state — the
immediate phase appends the new `Rolling Update` deployment to the chosen
model (leaving its other fields and all other models unchanged) and sets its
`deploymentStatus`; the timer phase marks that deployment and the model
`Deployed` and appends one `model_deployed` audit entry; the first phase
appends no audit entry. -/
theorem c3_deploy_workflow (s : AppState) (model : MLModelExtended)
    (environment newId aId : String) (now now2 : Int) :
    List.Forall₂ (deployPhase1Rel model environment newId now) s.mockModels
      (deployStart newId model environment now s).mockModels ∧
    List.Forall₂ (deployPhase2Rel model environment newId now) s.mockModels
      (deployMlModel aId newId model environment now now2 s).mockModels ∧
    (newDeploymentRecord newId model environment now).status = "Rolling Update" ∧
    (deployStart newId model environment now s).mockAuditLogs = s.mockAuditLogs ∧
    ∃ e, (deployMlModel aId newId model environment now now2 s).mockAuditLogs =
        s.mockAuditLogs ++ [e] ∧
      e.action = "model_deployed" ∧ e.targetType = "Deployment" ∧ e.targetId = newId := by
  refine ⟨?_, ?_, rfl, rfl, ⟨_, rfl, rfl, rfl, rfl⟩⟩
  · refine forall₂_map_self _ _ _ ?_
    intro m _
    unfold deployPhase1Rel
    constructor
    · intro hne
      simp only [if_neg hne]
    · intro heq
      simp [if_pos heq]
  · have hcomp : (deployMlModel aId newId model environment now now2 s).mockModels =
        s.mockModels.map (fun m =>
          (fun m1 => if m1.id = model.id then
            { m1 with
              deploymentHistory := m1.deploymentHistory.map (fun hist =>
                hist.map (fun d => if d.id = newId then { d with status := "Deployed" } else d))
              deploymentStatus := some "Deployed" }
          else m1)
          (if m.id = model.id then
            { m with
              deploymentHistory := some (m.deploymentHistory.getD [] ++
                [newDeploymentRecord newId model environment now])
              deploymentStatus := some "Rolling Update" }
          else m)) := by
      simp only [deployMlModel, deployFinish, deployStart, List.map_map]
      rfl
    rw [hcomp]
    refine forall₂_map_self _ _ _ ?_
    intro m _
    unfold deployPhase2Rel
    constructor
    · intro hne
      simp only [if_neg hne]
    · intro heq
      refine ⟨?_, ?_, ?_⟩
      · simp [if_pos heq]
      · simp [if_pos heq]
      · intro hfresh
        have hold : (m.deploymentHistory.getD []).map
            (fun d => if d.id = newId then { d with status := "Deployed" } else d) =
            m.deploymentHistory.getD [] :=
          (List.map_congr_left (fun d hd => if_neg (hfresh d hd))).trans (List.map_id' _)
        simp only [if_pos heq, Option.map_some', Option.getD_some, List.map_append,
          List.map_cons, List.map_nil, hold]
        simp [newDeploymentRecord]

/-- Witness for C3 at a concrete state and model. -/
theorem c3_deploy_workflow_witness :
    List.Forall₂ (deployPhase1Rel sampleModel "staging" "dep-new" 7) oneModelState.mockModels
      (deployStart "dep-new" sampleModel "staging" 7 oneModelState).mockModels ∧
    List.Forall₂ (deployPhase2Rel sampleModel "staging" "dep-new" 7) oneModelState.mockModels
      (deployMlModel "audit-3" "dep-new" sampleModel "staging" 7 8 oneModelState).mockModels ∧
    (newDeploymentRecord "dep-new" sampleModel "staging" 7).status = "Rolling Update" ∧
    (deployStart "dep-new" sampleModel "staging" 7 oneModelState).mockAuditLogs =
      oneModelState.mockAuditLogs ∧
    ∃ e, (deployMlModel "audit-3" "dep-new" sampleModel "staging" 7 8
          oneModelState).mockAuditLogs = oneModelState.mockAuditLogs ++ [e] ∧
      e.action = "model_deployed" ∧ e.targetType = "Deployment" ∧ e.targetId = "dep-new" :=
  c3_deploy_workflow oneModelState sampleModel "staging" "dep-new" "audit-3" 7 8

/-- C4: the retrain workflow is exactly set-state, fixed timer, set-state —
the immediate phase puts the chosen model in `Training` with its accuracy
lowered by the random amount `r1 * 5`, every other field untouched; the timer
phase puts it in `Staging` with its accuracy raised by the random amount
`r2 * 7` and a freshly generated 30-day performance history; models with any
other id are unchanged by both phases. -/
theorem c4_retrain_workflow (s : AppState) (id : String) (r1 r2 : Rat) (rs2 : RandStream)
    (today : Int) :
    List.Forall₂ (retrainPhase1Rel id r1) s.mockModels (retrainStart id r1 s).mockModels ∧
    List.Forall₂ (retrainPhase2Rel id r2 rs2 today) (retrainStart id r1 s).mockModels
      (retrainMlModel id r1 r2 rs2 today s).mockModels ∧
    List.Forall₂ (fun m m2 => m.id ≠ id → m2 = m) s.mockModels
      (retrainMlModel id r1 r2 rs2 today s).mockModels := by
  refine ⟨?_, ?_, ?_⟩
  · refine forall₂_map_self _ _ _ ?_
    intro m _
    unfold retrainPhase1Rel
    constructor
    · intro hne
      simp only [if_neg hne]
    · intro heq
      simp [if_pos heq]
  · refine forall₂_map_self _ _ _ ?_
    intro m1 _
    unfold retrainPhase2Rel
    constructor
    · intro hne
      simp only [if_neg hne]
    · intro heq
      refine ⟨?_, ?_, ?_, ?_, ?_, ?_, ?_, ?_, ?_, ?_, ?_⟩ <;>
        simp [if_pos heq, generateMockPerformanceHistory, perfLoop_length]
  · have hcomp : (retrainMlModel id r1 r2 rs2 today s).mockModels =
        s.mockModels.map (fun m =>
          (fun model => if model.id = id then
            { model with
              status := "Staging"
              accuracy := toFixed2 (model.accuracy + r2 * 7)
              performanceHistory := (generateMockPerformanceHistory rs2 today 30).map
                (fun d => { date := d.date, accuracy := d.accuracy }) }
          else model)
          (if m.id = id then
            { m with status := "Training", accuracy := toFixed2 (m.accuracy - r1 * 5) }
          else m)) := by
      simp only [retrainMlModel, retrainFinish, retrainStart, List.map_map]
      rfl
    rw [hcomp]
    refine forall₂_map_self _ _ _ ?_
    intro m _ hne
    simp only [if_neg hne]

/-- Witness for C4 at a concrete state and model id. -/
theorem c4_retrain_workflow_witness :
    List.Forall₂ (retrainPhase1Rel "model-123" (1 / 2)) oneModelState.mockModels
      (retrainStart "model-123" (1 / 2) oneModelState).mockModels ∧
    List.Forall₂ (retrainPhase2Rel "model-123" (1 / 2) rsHalf 0)
      (retrainStart "model-123" (1 / 2) oneModelState).mockModels
      (retrainMlModel "model-123" (1 / 2) (1 / 2) rsHalf 0 oneModelState).mockModels ∧
    List.Forall₂ (fun m m2 => m.id ≠ "model-123" → m2 = m) oneModelState.mockModels
      (retrainMlModel "model-123" (1 / 2) (1 / 2) rsHalf 0 oneModelState).mockModels :=
  c4_retrain_workflow oneModelState "model-123" (1 / 2) (1 / 2) rsHalf 0

/-- C6: `rollbackDeployment` changes only the `status` of the deployments with
the rolled-back id (to `Inactive`), across all models — every other deployment
field, every other deployment, every other model field, the alerts and the
features are unchanged — and appends exactly one `deployment_rolled_back`
audit entry carrying the deployment id. -/
theorem c6_rollback_frame (s : AppState) (aId deploymentId : String) (now : Int) :
    List.Forall₂ (rollbackModelRel deploymentId) s.mockModels
      (rollbackDeployment aId deploymentId now s).mockModels ∧
    (rollbackDeployment aId deploymentId now s).mockAlerts = s.mockAlerts ∧
    (rollbackDeployment aId deploymentId now s).mockFeatures = s.mockFeatures ∧
    ∃ e, (rollbackDeployment aId deploymentId now s).mockAuditLogs = s.mockAuditLogs ++ [e] ∧
      e.action = "deployment_rolled_back" ∧ e.targetType = "Deployment" ∧
      e.targetId = deploymentId := by
  refine ⟨?_, rfl, rfl, ⟨_, rfl, rfl, rfl, rfl⟩⟩
  refine forall₂_map_self _ _ _ ?_
  intro m _
  unfold rollbackModelRel
  refine ⟨rfl, rfl, rfl, rfl, rfl, rfl, rfl, rfl, rfl, rfl, rfl, rfl, rfl, rfl, ?_, ?_⟩
  · intro hnone
    simp [hnone]
  · intro hist hhist
    refine ⟨hist.map (fun d =>
      if d.id = deploymentId then { d with status := "Inactive" } else d), by simp [hhist], ?_⟩
    refine forall₂_map_self _ _ _ ?_
    intro d _
    constructor
    · intro hd
      simp only [if_pos hd]
    · intro hd
      simp only [if_neg hd]

/-- Witness for C6 at a concrete state and deployment id. -/
theorem c6_rollback_frame_witness :
    List.Forall₂ (rollbackModelRel "dep-1") oneModelState.mockModels
      (rollbackDeployment "audit-4" "dep-1" 9 oneModelState).mockModels ∧
    (rollbackDeployment "audit-4" "dep-1" 9 oneModelState).mockAlerts =
      oneModelState.mockAlerts ∧
    (rollbackDeployment "audit-4" "dep-1" 9 oneModelState).mockFeatures =
      oneModelState.mockFeatures ∧
    ∃ e, (rollbackDeployment "audit-4" "dep-1" 9 oneModelState).mockAuditLogs =
        oneModelState.mockAuditLogs ++ [e] ∧
      e.action = "deployment_rolled_back" ∧ e.targetType = "Deployment" ∧
      e.targetId = "dep-1" :=
  c6_rollback_frame oneModelState "audit-4" "dep-1" 9
